import Mathlib

/-
Verification of the signal-processing pipeline (model client, signal ranker,
novelty detector, analyzer, synthesizer) by a shallow embedding of the Python
sources into Lean.  Machine reals (Python floats) are modelled as rationals;
external collaborators (the model backend and the vector store) are modelled
as explicit outcome parameters, exactly at the call-site granularity of the
source code.
-/

set_option maxRecDepth 4096

namespace AIArch

/-! ## Python-semantics primitives -/

/-- JSON values as produced by json.loads: null, booleans, numbers (modelled
as rationals), strings, arrays and objects (field lists; a later duplicate of
a key shadows an earlier one, as in a Python dict, so lookups scan from the
right). -/
inductive Json where
  | null
  | bool (b : Bool)
  | num (q : Rat)
  | str (s : String)
  | arr (xs : List Json)
  | obj (fields : List (String × Json))

/-- Python truthiness of a JSON-decoded value: None, False, 0, the empty
string, the empty list and the empty dict are falsy. -/
def pyTruthy : Json → Bool
  | .null => false
  | .bool b => b
  | .num q => q != 0
  | .str s => s != ""
  | .arr xs => !xs.isEmpty
  | .obj fs => !fs.isEmpty

/-- Python str.strip(): remove whitespace from both ends. -/
def pyStrip (s : String) : String :=
  String.mk (((s.toList.dropWhile Char.isWhitespace).reverse.dropWhile
    Char.isWhitespace).reverse)

/-- Python s[:n] (also used for s.take-style truncations such as msg[:500]). -/
def pyTake (s : String) (n : Nat) : String :=
  String.mk (s.toList.take n)

/-- Python str.lower() (ASCII letters, which is all the code compares). -/
def pyLower (s : String) : String :=
  String.mk (s.toList.map Char.toLower)

/-- Index of the first occurrence of sub in hay at position ≥ pos, or -1. -/
def findSub : List Char → List Char → Nat → Int
  | hay, sub, pos =>
    if sub.isPrefixOf hay then pos
    else match hay with
      | [] => -1
      | _ :: t => findSub t sub (pos + 1)

/-- Python s.find(sub, start): first index ≥ start where sub occurs, or -1. -/
def pyFind (s sub : String) (start : Nat) : Int :=
  let r := findSub (s.toList.drop start) sub.toList 0
  if r < 0 then -1 else (start : Int) + r

/-- Python `sub in s` substring test. -/
def pyContains (s sub : String) : Bool :=
  0 ≤ pyFind s sub 0

/-- Python s[a:b] with a a non-negative index and b possibly negative
(counting from the end), as used by the fenced-code-block extraction. -/
def pySlice (s : String) (a : Nat) (b : Int) : String :=
  let n := s.toList.length
  let e : Nat := if b < 0 then ((n : Int) + b).toNat else min b.toNat n
  let a2 := min a n
  if e ≤ a2 then "" else String.mk ((s.toList.drop a2).take (e - a2))

/-- Value of a digit string. -/
def digitsToNat (cs : List Char) : Nat :=
  cs.foldl (fun a c => a * 10 + (c.toNat - 48)) 0

/-- Python int(s) on a string: strip, optional sign, decimal digits. -/
def parseIntStr (s : String) : Option Int :=
  let t := (pyStrip s).toList
  match t with
  | [] => none
  | c :: rest =>
    let p : Int × List Char :=
      if c = '-' then (-1, rest) else if c = '+' then (1, rest) else (1, t)
    if p.2 ≠ [] ∧ p.2.all Char.isDigit then
      some (p.1 * (digitsToNat p.2 : Int))
    else none

/-- Truncation of a rational toward zero, as Python int() does on a float
(the denominator is positive, so truncated integer division does it). -/
def ratTrunc (q : Rat) : Int :=
  q.num.tdiv q.den

/-- Python int(x) on a JSON-decoded value: numbers truncate toward zero,
booleans coerce to 0/1, integer-literal strings parse, everything else
raises (TypeError / ValueError). -/
def pyInt : Json → Except String Int
  | .num q => .ok (ratTrunc q)
  | .bool b => .ok (if b then 1 else 0)
  | .str s =>
    match parseIntStr s with
    | some n => .ok n
    | none => .error ("invalid literal for int: " ++ s)
  | _ => .error "TypeError: int argument"

/-- The rational sign * digits(intPart ++ fracPart) * 10 ^ e10, built from
integer arithmetic and mkRat so that concrete values kernel-reduce. -/
def decimalVal (neg : Bool) (intPart fracPart : List Char) (e10 : Int) : Rat :=
  let m : Nat := digitsToNat (intPart ++ fracPart)
  let sm : Int := if neg then -(m : Int) else (m : Int)
  let net : Int := e10 - (fracPart.length : Int)
  if 0 ≤ net then ((sm * (10 : Int) ^ net.toNat : Int) : Rat)
  else mkRat sm ((10 : Nat) ^ (-net).toNat)

/-- Python float-literal parse: sign, digits, optional fraction, optional
exponent (at least one digit overall). -/
def parseFloatStr (s : String) : Option Rat :=
  let t := (pyStrip s).toList
  let p : Bool × List Char :=
    match t with
    | '-' :: rest => (true, rest)
    | '+' :: rest => (false, rest)
    | _ => (false, t)
  let intPart := p.2.takeWhile Char.isDigit
  let r1 := p.2.dropWhile Char.isDigit
  let fr : List Char × List Char :=
    match r1 with
    | '.' :: rest => (rest.takeWhile Char.isDigit, rest.dropWhile Char.isDigit)
    | _ => ([], r1)
  if intPart = [] ∧ fr.1 = [] then none
  else
    match fr.2 with
    | [] => some (decimalVal p.1 intPart fr.1 0)
    | e :: rest =>
      if e = 'e' ∨ e = 'E' then
        let q : Bool × List Char :=
          match rest with
          | '-' :: r => (true, r)
          | '+' :: r => (false, r)
          | _ => (false, rest)
        if q.2 ≠ [] ∧ q.2.all Char.isDigit then
          let ex : Int :=
            if q.1 then -(digitsToNat q.2 : Int) else (digitsToNat q.2 : Int)
          some (decimalVal p.1 intPart fr.1 ex)
        else none
      else none

/-- Python float(x) on a JSON-decoded value. -/
def pyFloat : Json → Except String Rat
  | .num q => .ok q
  | .bool b => .ok (if b then 1 else 0)
  | .str s =>
    match parseFloatStr s with
    | some q => .ok q
    | none => .error ("could not convert string to float: " ++ s)
  | _ => .error "TypeError: float argument"

/-- Python d.get(key, default) on a JSON object's fields (last write wins). -/
def jsonGetD (fs : List (String × Json)) (k : String) (d : Json) : Json :=
  match fs.reverse.find? (fun p => p.1 == k) with
  | some p => p.2
  | none => d

/-- Python d.get(key) on a JSON object's fields: None when absent. -/
def jsonGet (fs : List (String × Json)) (k : String) : Option Json :=
  (fs.reverse.find? (fun p => p.1 == k)).map Prod.snd

/-- Python `x or d` on an int (0 is falsy, so 0 silently becomes d). -/
def pyOrInt (x d : Int) : Int := if x = 0 then d else x

/-- Python `x or d` on an int used as a size (0 is falsy). -/
def pyOrNat (x d : Nat) : Nat := if x = 0 then d else x

/-- Python `x or d` on a float (0.0 is falsy, so 0.0 silently becomes d). -/
def pyOrRat (x d : Rat) : Rat := if x = 0 then d else x

/-- Python `x or d` where x is an Optional float (None and 0.0 both yield d). -/
def pyOrOptRat (x : Option Rat) (d : Rat) : Rat :=
  match x with
  | none => d
  | some v => pyOrRat v d

/-! ## A model of json.loads (recursive-descent over the JSON grammar) -/

/-- Skip JSON whitespace. -/
def skipWs (cs : List Char) : List Char :=
  cs.dropWhile (fun c => c = ' ' ∨ c = '\t' ∨ c = '\n' ∨ c = '\r')

/-- Hex digit value. -/
def hexVal (c : Char) : Option Nat :=
  if '0' ≤ c ∧ c ≤ '9' then some (c.toNat - 48)
  else if 'a' ≤ c ∧ c ≤ 'f' then some (c.toNat - 87)
  else if 'A' ≤ c ∧ c ≤ 'F' then some (c.toNat - 55)
  else none

/-- Parse the body of a JSON string literal (after the opening quote),
returning the accumulated characters and the remainder after the closing
quote.  Raw control characters and unknown escapes are rejected, as in the
strict Python decoder. -/
def jsonStrBody : List Char → List Char → Option (List Char × List Char)
  | acc, '"' :: rest => some (acc.reverse, rest)
  | acc, '\\' :: e :: rest =>
    match e with
    | '"' => jsonStrBody ('"' :: acc) rest
    | '\\' => jsonStrBody ('\\' :: acc) rest
    | '/' => jsonStrBody ('/' :: acc) rest
    | 'b' => jsonStrBody ('\x08' :: acc) rest
    | 'f' => jsonStrBody ('\x0c' :: acc) rest
    | 'n' => jsonStrBody ('\n' :: acc) rest
    | 'r' => jsonStrBody ('\r' :: acc) rest
    | 't' => jsonStrBody ('\t' :: acc) rest
    | 'u' =>
      match rest with
      | a :: b :: c :: d :: rest2 =>
        match hexVal a, hexVal b, hexVal c, hexVal d with
        | some x, some y, some z, some w =>
          jsonStrBody (Char.ofNat (((x * 16 + y) * 16 + z) * 16 + w) :: acc) rest2
        | _, _, _, _ => none
      | _ => none
    | _ => none
  | acc, c :: rest =>
    if c.toNat < 32 then none else jsonStrBody (c :: acc) rest
  | _, [] => none

/-- Parse a JSON number at the head of the input (grammar:
-? int frac? exp?), returning its rational value and the remainder. -/
def jsonNum (cs : List Char) : Option (Rat × List Char) :=
  let p : Bool × List Char :=
    match cs with
    | '-' :: rest => (true, rest)
    | _ => (false, cs)
  let intPart := p.2.takeWhile Char.isDigit
  if intPart = [] then none
  else
    let r1 := p.2.dropWhile Char.isDigit
    let fr : List Char × List Char :=
      match r1 with
      | '.' :: rest =>
        let f := rest.takeWhile Char.isDigit
        if f = [] then ([], r1) else (f, rest.dropWhile Char.isDigit)
      | _ => ([], r1)
    match fr.2 with
    | e :: rest =>
      if e = 'e' ∨ e = 'E' then
        let q : Bool × List Char :=
          match rest with
          | '-' :: r => (true, r)
          | '+' :: r => (false, r)
          | _ => (false, rest)
        let ds := q.2.takeWhile Char.isDigit
        if ds = [] then some (decimalVal p.1 intPart fr.1 0, fr.2)
        else
          let ex : Int :=
            if q.1 then -(digitsToNat ds : Int) else (digitsToNat ds : Int)
          some (decimalVal p.1 intPart fr.1 ex, q.2.dropWhile Char.isDigit)
      else some (decimalVal p.1 intPart fr.1 0, fr.2)
    | [] => some (decimalVal p.1 intPart fr.1 0, [])

mutual

/-- Parse one JSON value at the head of the input (fuel-bounded; the fuel
passed by jsonLoads always suffices because every recursive step first
consumes at least one character). -/
def jsonVal : Nat → List Char → Option (Json × List Char)
  | 0, _ => none
  | fuel + 1, cs =>
    match skipWs cs with
    | 'n' :: 'u' :: 'l' :: 'l' :: rest => some (.null, rest)
    | 't' :: 'r' :: 'u' :: 'e' :: rest => some (.bool true, rest)
    | 'f' :: 'a' :: 'l' :: 's' :: 'e' :: rest => some (.bool false, rest)
    | '"' :: rest =>
      match jsonStrBody [] rest with
      | some (body, rest2) => some (.str (String.mk body), rest2)
      | none => none
    | '[' :: rest =>
      (match skipWs rest with
      | ']' :: rest2 => some (.arr [], rest2)
      | _ =>
        match jsonArrItems fuel [] rest with
        | some (xs, rest2) => some (.arr xs, rest2)
        | none => none)
    | '{' :: rest =>
      (match skipWs rest with
      | '}' :: rest2 => some (.obj [], rest2)
      | _ =>
        match jsonObjItems fuel [] rest with
        | some (fs, rest2) => some (.obj fs, rest2)
        | none => none)
    | cs2 =>
      match jsonNum cs2 with
      | some (q, rest) => some (.num q, rest)
      | none => none

/-- Parse the comma-separated items of a non-empty JSON array, up to and
including the closing bracket. -/
def jsonArrItems : Nat → List Json → List Char → Option (List Json × List Char)
  | 0, _, _ => none
  | fuel + 1, acc, cs =>
    match jsonVal fuel cs with
    | none => none
    | some (v, rest) =>
      match skipWs rest with
      | ',' :: rest2 => jsonArrItems fuel (v :: acc) rest2
      | ']' :: rest2 => some ((v :: acc).reverse, rest2)
      | _ => none

/-- Parse the comma-separated "key": value pairs of a non-empty JSON object,
up to and including the closing brace. -/
def jsonObjItems : Nat → List (String × Json) → List Char →
    Option (List (String × Json) × List Char)
  | 0, _, _ => none
  | fuel + 1, acc, cs =>
    match skipWs cs with
    | '"' :: rest =>
      (match jsonStrBody [] rest with
      | none => none
      | some (key, rest2) =>
        match skipWs rest2 with
        | ':' :: rest3 =>
          (match jsonVal fuel rest3 with
          | none => none
          | some (v, rest4) =>
            match skipWs rest4 with
            | ',' :: rest5 => jsonObjItems fuel ((String.mk key, v) :: acc) rest5
            | '}' :: rest5 => some (((String.mk key, v) :: acc).reverse, rest5)
            | _ => none)
        | _ => none)
    | _ => none

end

/-- Model of Python json.loads: parse one JSON document, allowing only
trailing whitespace; None models a raised json.JSONDecodeError. -/
def jsonLoads (s : String) : Option Json :=
  match jsonVal (2 * s.toList.length + 2) s.toList with
  | some (j, rest) => if skipWs rest = [] then some j else none
  | none => none

/-! ## claude_client.py -/

/-- The client error hierarchy of claude_client.py: ClaudeTimeoutError,
ClaudeAPIError and ClaudeParseError, all subclasses of ClaudeClientError. -/
inductive ClientError where
  | timeoutErr (msg : String)
  | apiErr (msg : String)
  | parseErr (msg : String)

/-- Whether an exception is a ClaudeAPIError (the class named by the tenacity
retry predicate retry_if_exception_type(ClaudeAPIError)). -/
def ClientError.isApi : ClientError → Bool
  | .apiErr _ => true
  | _ => false

/-- One backend call's outcome: a text response, an APITimeoutError, or an
APIError carrying an error message. -/
inductive BackendOutcome where
  | success (content : String)
  | timeout
  | apiFailure (msg : String)

/-- The body of ClaudeClient._execute for a single attempt: a timeout maps to
ClaudeTimeoutError; an APIError message is truncated to 500 chars and raised
as ClaudeAPIError, prefixed "Rate limited: " when it carries a rate/overload
signature (case-insensitive substring match) and "API error: " otherwise. -/
def executeOnce (timeoutS : Nat) : BackendOutcome → Except ClientError String
  | .success c => .ok c
  | .timeout =>
    .error (.timeoutErr ("Request timed out after " ++ toString timeoutS ++ "s"))
  | .apiFailure m =>
    let em := pyTake m 500
    if pyContains (pyLower em) "rate" || pyContains (pyLower em) "overload" then
      .error (.apiErr ("Rate limited: " ++ em))
    else
      .error (.apiErr ("API error: " ++ em))

/-- The tenacity retry loop around _execute, from attempt number `attempt`
with `fuel` retries remaining: a ClaudeAPIError is retried while retries
remain, every other exception propagates at once, and the final failure is
re-raised untouched (reraise=True).  Also returns the number of backend calls
made.  `behavior` gives the backend's outcome for each attempt number. -/
def executeFrom (timeoutS : Nat) (behavior : Nat → BackendOutcome) :
    Nat → Nat → Except ClientError String × Nat
  | attempt, 0 => (executeOnce timeoutS (behavior attempt), attempt + 1)
  | attempt, fuel + 1 =>
    match executeOnce timeoutS (behavior attempt) with
    | .ok c => (.ok c, attempt + 1)
    | .error e =>
      if e.isApi then executeFrom timeoutS behavior (attempt + 1) fuel
      else (.error e, attempt + 1)

/-- ClaudeClient._execute under its @retry decorator:
stop_after_attempt(3), so at most two retries after the first attempt. -/
def executeRun (timeoutS : Nat) (behavior : Nat → BackendOutcome) :
    Except ClientError String × Nat :=
  executeFrom timeoutS behavior 0 2

/-- ClaudeClient._parse_json_from_content: direct parse of the stripped
content, then a "```json" fenced block, then a generic "```" fenced block
(skipping a language identifier line), with Python find/slice semantics
(a missing closing fence gives index -1, slicing to the last char). -/
def parseJsonFromContent (content : String) : Option Json :=
  match jsonLoads (pyStrip content) with
  | some j => some j
  | none =>
    let viaJsonFence : Option Json :=
      if pyContains content "```json" then
        let s := (pyFind content "```json" 0).toNat + 7
        let e := pyFind content "```" s
        jsonLoads (pyStrip (pySlice content s e))
      else none
    match viaJsonFence with
    | some j => some j
    | none =>
      if pyContains content "```" then
        let s := (pyFind content "```" 0).toNat + 3
        let nl := pyFind content "\n" s
        let s2 := if nl > (s : Int) then nl.toNat + 1 else s
        let e := pyFind content "```" s2
        jsonLoads (pyStrip (pySlice content s2 e))
      else none

/-- ClaudeResponse (the usage / raw_output bookkeeping fields are omitted;
nothing reads them). -/
structure ClaudeResponse where
  content : String
  json_data : Option Json := none

/-- ClaudeClient.complete, parametrised by the result of _execute: on
success, json_data is populated only when expect_json is set, the content is
non-empty, extraction succeeds AND the extracted value is truthy (the
`if json_data:` check discards a parsed-but-falsy value). -/
def completeRun (expectJson : Bool) (execResult : Except ClientError String) :
    Except ClientError ClaudeResponse :=
  match execResult with
  | .error e => .error e
  | .ok content =>
    let jd : Option Json :=
      if expectJson && content != "" then
        match parseJsonFromContent content with
        | some j => if pyTruthy j then some j else none
        | none => none
      else none
    .ok { content := content, json_data := jd }

/-- ClaudeClient.complete_json: complete with expect_json=True, raising
ClaudeParseError when json_data ends up None. -/
def completeJsonRun (execResult : Except ClientError String) :
    Except ClientError Json :=
  match completeRun true execResult with
  | .error e => .error e
  | .ok resp =>
    match resp.json_data with
    | some j => .ok j
    | none =>
      .error (.parseErr ("Expected JSON response but got: " ++ pyTake resp.content 200))

/-! ## collectors/base.py — the data model -/

/-- SourceType from collectors/base.py. -/
inductive SourceType where
  | docs | github_signals | github_emerging | github_repos | blogs
  | stackoverflow | podcasts | packages | jobs | reddit | hackernews
  | engineering_blogs | arxiv | youtube | conferences
deriving DecidableEq

/-- The .value string of each SourceType member. -/
def SourceType.value : SourceType → String
  | .docs => "docs"
  | .github_signals => "github_signals"
  | .github_emerging => "github_emerging"
  | .github_repos => "github_repos"
  | .blogs => "blogs"
  | .stackoverflow => "stackoverflow"
  | .podcasts => "podcasts"
  | .packages => "packages"
  | .jobs => "jobs"
  | .reddit => "reddit"
  | .hackernews => "hackernews"
  | .engineering_blogs => "engineering_blogs"
  | .arxiv => "arxiv"
  | .youtube => "youtube"
  | .conferences => "conferences"

/-- CollectedItem from collectors/base.py.  The published_at / collected_at
timestamps are real-time provenance not read by any claimed code path and
are not modelled.  metadata holds JSON-like source-specific values. -/
structure CollectedItem where
  id : String
  source_type : SourceType
  source_url : String
  title : String
  content : String
  summary : Option String := none
  author : Option String := none
  metadata : List (String × Json) := []
  signal_score : Option Int := none
  novelty_score : Option Rat := none
  impact : Option String := none
  maturity : Option String := none

/-! ## utils/config.py — the thresholds consumed by the core -/

/-- ThresholdsConfig from utils/config.py with its field defaults. -/
structure ThresholdsConfig where
  signal_score_min : Int := 4
  novelty_score_min : Rat := 3 / 10
  batch_size : Nat := 10
  request_delay : Rat := 5
  batch_delay : Rat := 3

/-! ## novelty_detector.py -/

/-- The shape of a vector-store search result that compute_novelty reads:
its "distances" field, one inner list per query. -/
structure SearchResults where
  distances : List (List Rat)

/-- What the store lookup inside compute_novelty did: raised some exception,
or returned either a falsy result object or a results dict. -/
inductive StoreSearchOutcome where
  | raised
  | returned (res : Option SearchResults)

/-- NoveltyDetector.compute_novelty, parametrised by the store lookup's
outcome.  A raised lookup yields the fixed default 0.5; a falsy result,
missing/empty "distances", or an empty first-query distance list yields 1.0;
otherwise similarity = 1 - min(min_distance / 2.0, 1.0) and the returned
novelty is 1 - similarity. -/
def compute_novelty (outcome : StoreSearchOutcome) : Rat :=
  match outcome with
  | .raised => 1 / 2
  | .returned none => 1
  | .returned (some res) =>
    match res.distances with
    | [] => 1
    | ds :: _ =>
      match ds with
      | [] => 1
      | d0 :: rest =>
        let min_distance := rest.foldl min d0
        let max_distance : Rat := 2
        let similarity := 1 - min (min_distance / max_distance) 1
        1 - similarity

/-- NoveltyDetector.check_novelty: (novelty ≥ self.novelty_threshold, novelty). -/
def check_novelty (novelty_threshold : Rat) (outcome : StoreSearchOutcome) :
    Bool × Rat :=
  let novelty_score := compute_novelty outcome
  (novelty_threshold ≤ novelty_score, novelty_score)

/-- The NoveltyDetector constructor state: `novelty_threshold or
config.thresholds.novelty_score_min`, so a 0.0 argument falls back to the
configured default. -/
structure NoveltyDetectorState where
  novelty_threshold : Rat
  similarity_threshold : Rat

/-- NoveltyDetector.__init__. -/
def mkNoveltyDetector (cfg : ThresholdsConfig) (novelty_threshold : Rat)
    (similarity_threshold : Rat) : NoveltyDetectorState :=
  { novelty_threshold := pyOrRat novelty_threshold cfg.novelty_score_min
    similarity_threshold := similarity_threshold }

/-- NoveltyDetector.filter_novel, parametrised by each item's store-lookup
outcome.  The local `threshold = min_novelty or self.novelty_threshold` is
computed in the source but only logged: the per-item check delegates to
check_novelty, which always uses self.novelty_threshold.  A passing item
has its novelty_score written onto it; a failing item is dropped. -/
def filterNovel (novelty_threshold : Rat) (min_novelty : Option Rat)
    (lookup : CollectedItem → StoreSearchOutcome)
    (items : List CollectedItem) : List CollectedItem :=
  let _threshold := pyOrOptRat min_novelty novelty_threshold
  items.filterMap (fun item =>
    let r := check_novelty novelty_threshold (lookup item)
    if r.1 then some { item with novelty_score := some r.2 } else none)

/-! ## signal_ranker.py -/

/-- IMPACT_DIMENSIONS from signal_ranker.py. -/
def IMPACT_DIMENSIONS : List String :=
  ["tooling", "architecture", "research", "production", "ecosystem"]

/-- MATURITY_LEVELS from signal_ranker.py. -/
def MATURITY_LEVELS : List String :=
  ["experimental", "early", "growing", "stable", "legacy"]

/-- RankedItem from signal_ranker.py.  reasoning holds whatever JSON value
the model supplied (None when absent or JSON null, as Python's .get makes
the two indistinguishable). -/
structure RankedItem where
  item : CollectedItem
  signal_score : Int
  impact : String
  maturity : String
  reasoning : Option Json := none

/-- The SignalRanker constructor state: batch_size and signal_threshold use
truthiness `or` fallbacks (so 0 silently becomes the configured default),
while batch_delay uses an is-None check. -/
structure SignalRankerState where
  batch_size : Nat
  signal_threshold : Int
  batch_delay : Rat

/-- SignalRanker.__init__. -/
def mkSignalRanker (cfg : ThresholdsConfig) (batch_size : Nat)
    (signal_threshold : Int) (batch_delay : Option Rat) : SignalRankerState :=
  { batch_size := pyOrNat batch_size cfg.batch_size
    signal_threshold := pyOrInt signal_threshold cfg.signal_score_min
    batch_delay :=
      match batch_delay with
      | some d => d
      | none => cfg.batch_delay }

/-- The heuristic score of SignalRanker._fallback_rank: base 5; 6 for the
github_signals and docs source kinds; else 7 for github_emerging; else 7
when metadata carries a truthy has_priority_label; else 5. -/
def fallbackScore (item : CollectedItem) : Int :=
  if item.source_type.value = "github_signals" ∨ item.source_type.value = "docs"
  then 6
  else if item.source_type.value = "github_emerging" then 7
  else if pyTruthy (jsonGetD item.metadata "has_priority_label" .null) then 7
  else 5

/-- SignalRanker._fallback_rank. -/
def fallbackRank (items : List CollectedItem) : List RankedItem :=
  items.map (fun item =>
    { item := item
      signal_score := fallbackScore item
      impact := "ecosystem"
      maturity := "growing"
      reasoning := some (.str "Fallback ranking (Claude unavailable)") })

/-- The unwrap step of _parse_rankings: a dict response is replaced by its
"rankings" field, else its "items" field, else a singleton list holding the
dict itself. -/
def unwrapRankings (j : Json) : Json :=
  match j with
  | .obj fs => jsonGetD fs "rankings" (jsonGetD fs "items" (.arr [.obj fs]))
  | _ => j

/-- Python iteration over a JSON-decoded value, as `enumerate(rankings_data)`
performs it: a list yields its elements, a dict its keys (first-occurrence
order, duplicates collapsed), a string its characters; other values raise
TypeError. -/
def pyIterate : Json → Except String (List Json)
  | .arr xs => .ok xs
  | .obj fs => .ok ((fs.map Prod.fst).eraseDups.map Json.str)
  | .str s => .ok (s.toList.map (fun c => Json.str (String.mk [c])))
  | _ => .error "TypeError: object is not iterable"

/-- Python `==` between dict keys of JSON-decoded types: numbers and bools
compare by numeric value, strings by content, None only to None. -/
def pyKeyEq : Json → Json → Bool
  | .num a, .num b => a == b
  | .num a, .bool b => a == (if b then (1 : Rat) else 0)
  | .bool a, .num b => (if a then (1 : Rat) else 0) == b
  | .bool a, .bool b => a == b
  | .str a, .str b => a == b
  | .null, .null => true
  | _, _ => false

/-- Insert into a Python-dict model (overwrite the value when an equal key
exists, else append). -/
def dictInsert (d : List (Json × List (String × Json))) (k : Json)
    (v : List (String × Json)) : List (Json × List (String × Json)) :=
  if d.any (fun p => pyKeyEq p.1 k) then
    d.map (fun p => if pyKeyEq p.1 k then (p.1, v) else p)
  else d ++ [(k, v)]

/-- Lookup in the Python-dict model. -/
def dictFind (d : List (Json × List (String × Json))) (k : Json) :
    Option (List (String × Json)) :=
  (d.find? (fun p => pyKeyEq p.1 k)).map Prod.snd

/-- The dict comprehension
\x7br.get("index", i): r for i, r in enumerate(rankings_data)\x7d:
each entry must be a dict (else AttributeError) and its key must be hashable
(else TypeError); a duplicate key overwrites. -/
def buildRankingsByIndex (rs : List Json) :
    Except String (List (Json × List (String × Json))) :=
  (rs.enum.foldlM (fun d p =>
    match p.2 with
    | .obj fs =>
      let key := jsonGetD fs "index" (.num p.1)
      match key with
      | .arr _ => .error "TypeError: unhashable type"
      | .obj _ => .error "TypeError: unhashable type"
      | _ => .ok (dictInsert d key fs)
    | _ => .error "AttributeError: get") [])

/-- The per-item body of _parse_rankings: look the item's position up in
rankings_by_index (default an empty dict), default-and-coerce signal_score
through int() (which can raise), clamp it to [1,10], and validate impact /
maturity against the fixed category sets. -/
def parseOneRanking (byIdx : List (Json × List (String × Json))) (i : Nat)
    (item : CollectedItem) : Except String RankedItem := do
  let ranking := (dictFind byIdx (.num i)).getD []
  let raw ← pyInt (jsonGetD ranking "signal_score" (.num 5))
  let signal_score := max 1 (min 10 raw)
  let impact :=
    match jsonGetD ranking "impact" (.str "ecosystem") with
    | .str s => if s ∈ IMPACT_DIMENSIONS then s else "ecosystem"
    | _ => "ecosystem"
  let maturity :=
    match jsonGetD ranking "maturity" (.str "growing") with
    | .str s => if s ∈ MATURITY_LEVELS then s else "growing"
    | _ => "growing"
  let reasoning :=
    match jsonGet ranking "reasoning" with
    | some .null => none
    | r => r
  .ok { item := item, signal_score := signal_score, impact := impact
        maturity := maturity, reasoning := reasoning }

/-- SignalRanker._parse_rankings. -/
def parseRankingsRun (items : List CollectedItem) (jd : Json) :
    Except String (List RankedItem) := do
  let rs ← pyIterate (unwrapRankings jd)
  let byIdx ← buildRankingsByIndex rs
  items.enum.mapM (fun p => parseOneRanking byIdx p.1 p.2)

/-- The outcome of a self.client.complete call as seen by a caller that
catches ClaudeClientError: either such an error was raised, or a
ClaudeResponse came back. -/
inductive CompleteOutcome where
  | clientFailure (e : ClientError)
  | responded (resp : ClaudeResponse)

/-- SignalRanker.rank_batch, parametrised by the complete call's outcome:
empty input short-circuits; a ClaudeClientError or falsy json_data takes the
heuristic fallback; otherwise _parse_rankings runs and any exception it
raises (there is no handler for non-client errors) propagates. -/
def rankBatch (items : List CollectedItem) (outcome : CompleteOutcome) :
    Except String (List RankedItem) :=
  if items.isEmpty then .ok []
  else
    match outcome with
    | .clientFailure _ => .ok (fallbackRank items)
    | .responded resp =>
      match resp.json_data with
      | none => .ok (fallbackRank items)
      | some j =>
        if pyTruthy j then parseRankingsRun items j
        else .ok (fallbackRank items)

/-- Fuel-bounded splitting into batches of n (the fuel passed by chunksOf
always suffices because each step drops at least one item). -/
def chunksOfAux (n : Nat) : Nat → List CollectedItem → List (List CollectedItem)
  | 0, _ => []
  | _, [] => []
  | fuel + 1, x :: xs => (x :: xs).take n :: chunksOfAux n fuel ((x :: xs).drop n)

/-- The batching loop of rank_all: items[i:i+batch_size] for i in
range(0, len(items), batch_size).  (With batch_size 0 the Python range would
raise; the constructor's truthiness fallback makes that unreachable.) -/
def chunksOf (n : Nat) (items : List CollectedItem) : List (List CollectedItem) :=
  if n = 0 then [] else chunksOfAux n items.length items

/-- rank_all before its final threshold filter: rank each batch (the k-th
batch seeing the k-th complete outcome) and concatenate. -/
def rankAllRaw (batch_size : Nat) (items : List CollectedItem)
    (responses : Nat → CompleteOutcome) : Except String (List RankedItem) :=
  ((chunksOf batch_size items).enum.mapM
    (fun p => rankBatch p.2 (responses p.1))).map List.flatten

/-- SignalRanker.rank_all: batch, rank, concatenate, then keep only the
ranked items with signal_score ≥ signal_threshold. -/
def rankAllRun (batch_size : Nat) (signal_threshold : Int)
    (items : List CollectedItem) (responses : Nat → CompleteOutcome) :
    Except String (List RankedItem) :=
  (rankAllRaw batch_size items responses).map
    (List.filter (fun r => signal_threshold ≤ r.signal_score))

/-- SignalRanker.apply_scores: write each surviving RankedItem's score triple
onto its CollectedItem and return the plain items. -/
def applyScores (ranked : List RankedItem) : List CollectedItem :=
  ranked.map (fun r =>
    { r.item with
      signal_score := some r.signal_score
      impact := some r.impact
      maturity := some r.maturity })

/-- Re-running the signal threshold filter on finished CollectedItems. -/
def thresholdFilter (signal_threshold : Int) (items : List CollectedItem) :
    List CollectedItem :=
  items.filter (fun it =>
    match it.signal_score with
    | some s => signal_threshold ≤ s
    | none => false)

/-! ## analyzer.py -/

/-- AnalysisResult from analyzer.py.  The narrative fields hold whatever JSON
values the model supplied (only defaulting is applied); confidence is always
a float after the float() coercion and clamp. -/
structure AnalysisResult where
  item_id : String
  summary : Json
  key_insights : Json
  technical_details : Json
  relevance_to_claude : Json
  actionability : Json
  related_topics : Json
  confidence : Rat

/-- Analyzer._parse_result: defaults for absent fields, and confidence
coerced through float() (which can raise) then clamped to [0,1]. -/
def parseAnalysisResult (item_id : String) (fs : List (String × Json)) :
    Except String AnalysisResult := do
  let conf ← pyFloat (jsonGetD fs "confidence" (.num (mkRat 7 10)))
  .ok { item_id := item_id
        summary := jsonGetD fs "summary" (.str "Unable to generate summary.")
        key_insights := jsonGetD fs "key_insights" (.arr [])
        technical_details := jsonGetD fs "technical_details" .null
        relevance_to_claude := jsonGetD fs "relevance_to_claude" (.str "")
        actionability := jsonGetD fs "actionability" (.str "medium")
        related_topics := jsonGetD fs "related_topics" (.arr [])
        confidence := min 1 (max 0 conf) }

/-- Analyzer._fallback_analysis: summary from the content's first sentence
(or the title when content is empty), truncated to 500 chars; a single
fallback insight; confidence 0.3. -/
def fallbackAnalysis (item : CollectedItem) : AnalysisResult :=
  let summary :=
    if item.content ≠ "" then
      (match item.content.splitOn "." with
       | s :: _ => s
       | [] => "") ++ "."
    else item.title
  { item_id := item.id
    summary := .str (pyTake summary 500)
    key_insights := .arr [.str "Analysis unavailable - using fallback"]
    technical_details := .null
    relevance_to_claude := .str "Unable to assess"
    actionability := .str "medium"
    related_topics := .arr [.str item.source_type.value]
    confidence := 3 / 10 }

/-- What happened inside Analyzer.analyze's try block for one item: the
client raised a ClaudeClientError, some other unexpected exception was
raised (network, store, ...), or a ClaudeResponse came back. -/
inductive AnalyzeOutcome where
  | clientFailure (e : ClientError)
  | unexpectedFailure (msg : String)
  | responded (resp : ClaudeResponse)

/-- Analyzer.analyze, parametrised by the outcome: every exception path,
including the catch-all `except Exception` (which also covers a
_parse_result failure on malformed JSON), lands in _fallback_analysis, so
per item a result is always produced. -/
def analyzeRun (item : CollectedItem) (outcome : AnalyzeOutcome) :
    AnalysisResult :=
  match outcome with
  | .clientFailure _ => fallbackAnalysis item
  | .unexpectedFailure _ => fallbackAnalysis item
  | .responded resp =>
    match resp.json_data with
    | none => fallbackAnalysis item
    | some j =>
      if pyTruthy j then
        match j with
        | .obj fs =>
          match parseAnalysisResult item.id fs with
          | .ok r => r
          | .error _ => fallbackAnalysis item
        | _ => fallbackAnalysis item
      else fallbackAnalysis item

/-- Analyzer.analyze_batch, parametrised by each item position's outcome:
sequential, order-preserving, one (item, result) pair per input item. -/
def analyzeBatch (items : List CollectedItem)
    (outcomes : Nat → AnalyzeOutcome) :
    List (CollectedItem × Option AnalysisResult) :=
  items.enum.map (fun p => (p.2, some (analyzeRun p.2 (outcomes p.1))))

/-! ## synthesizer.py -/

/-- DailySynthesis from synthesizer.py (narrative fields hold the JSON values
the model supplied, defaulted when absent). -/
structure DailySynthesis where
  date : String
  relevance_score : Int
  highlights : Json
  patterns : Json
  recommendations : Json
  key_changes : Json
  summary : Json

/-- WeeklySynthesis from synthesizer.py. -/
structure WeeklySynthesis where
  week : String
  relevance_score : Int
  top_stories : Json
  trends : Json
  competitive_moves : Json
  emerging_technologies : Json
  recommendations : Json
  summary : Json

/-- MonthlySynthesis from synthesizer.py. -/
structure MonthlySynthesis where
  month : String
  relevance_score : Int
  major_developments : Json
  trend_analysis : Json
  ecosystem_changes : Json
  competitive_landscape : Json
  predictions : Json
  recommendations : Json
  summary : Json

/-- Synthesizer._parse_daily_synthesis: relevance_score through int() then
min(10, max(1, .)); narrative fields defaulted. -/
def parseDailySynthesis (date : String) (fs : List (String × Json)) :
    Except String DailySynthesis := do
  let raw ← pyInt (jsonGetD fs "relevance_score" (.num 5))
  .ok { date := date
        relevance_score := min 10 (max 1 raw)
        highlights := jsonGetD fs "highlights" (.arr [])
        patterns := jsonGetD fs "patterns" (.arr [])
        recommendations := jsonGetD fs "recommendations" (.arr [])
        key_changes := jsonGetD fs "key_changes" (.arr [])
        summary := jsonGetD fs "summary" (.str "Synthesis unavailable.") }

/-- Synthesizer._parse_weekly_synthesis. -/
def parseWeeklySynthesis (week : String) (fs : List (String × Json)) :
    Except String WeeklySynthesis := do
  let raw ← pyInt (jsonGetD fs "relevance_score" (.num 5))
  .ok { week := week
        relevance_score := min 10 (max 1 raw)
        top_stories := jsonGetD fs "top_stories" (.arr [])
        trends := jsonGetD fs "trends" (.arr [])
        competitive_moves := jsonGetD fs "competitive_moves" (.arr [])
        emerging_technologies := jsonGetD fs "emerging_technologies" (.arr [])
        recommendations := jsonGetD fs "recommendations" (.arr [])
        summary := jsonGetD fs "summary" (.str "") }

/-- Synthesizer._parse_monthly_synthesis. -/
def parseMonthlySynthesis (month : String) (fs : List (String × Json)) :
    Except String MonthlySynthesis := do
  let raw ← pyInt (jsonGetD fs "relevance_score" (.num 5))
  .ok { month := month
        relevance_score := min 10 (max 1 raw)
        major_developments := jsonGetD fs "major_developments" (.arr [])
        trend_analysis := jsonGetD fs "trend_analysis" (.str "")
        ecosystem_changes := jsonGetD fs "ecosystem_changes" (.arr [])
        competitive_landscape := jsonGetD fs "competitive_landscape" (.str "")
        predictions := jsonGetD fs "predictions" (.arr [])
        recommendations := jsonGetD fs "recommendations" (.arr [])
        summary := jsonGetD fs "summary" (.str "") }

/-- Synthesizer._fallback_daily: the first 3 item titles as highlights,
relevance 5, a "Review items manually" recommendation and a templated
non-empty summary. -/
def fallbackDaily (date : String)
    (items : List (CollectedItem × Option AnalysisResult)) : DailySynthesis :=
  { date := date
    relevance_score := 5
    highlights := .arr ((items.take 3).map (fun p => .str p.1.title))
    patterns := .arr [.str "Synthesis unavailable - using fallback"]
    recommendations := .arr [.str "Review items manually"]
    key_changes := .arr []
    summary := .str ("Processed " ++ toString items.length ++
      " items. Synthesis generation failed.") }

/-- Synthesizer.synthesize_daily, parametrised by the complete call's
outcome: a ClaudeClientError or falsy json_data takes _fallback_daily;
otherwise _parse_daily_synthesis runs (its own exceptions, not being
ClaudeClientError, would propagate). -/
def synthesizeDaily (date : String)
    (items : List (CollectedItem × Option AnalysisResult))
    (outcome : CompleteOutcome) : Except String DailySynthesis :=
  match outcome with
  | .clientFailure _ => .ok (fallbackDaily date items)
  | .responded resp =>
    match resp.json_data with
    | none => .ok (fallbackDaily date items)
    | some j =>
      if pyTruthy j then
        match j with
        | .obj fs => parseDailySynthesis date fs
        | _ => .error "AttributeError: get"
      else .ok (fallbackDaily date items)

/-! ## Shared helper lemmas -/

/-- A successful Except-valued mapM produces one output per input, each
output coming from a successful application on some input. -/
theorem except_mapM_ok {α β ε : Type} (f : α → Except ε β) :
    ∀ (xs : List α) (l : List β), xs.mapM f = .ok l →
      l.length = xs.length ∧ ∀ y ∈ l, ∃ x ∈ xs, f x = .ok y := by
  intro xs
  induction xs with
  | nil =>
    intro l h
    simp only [List.mapM_nil, pure, Except.pure] at h
    cases h
    simp
  | cons x xs ih =>
    intro l h
    simp only [List.mapM_cons] at h
    cases hx : f x with
    | error e => rw [hx] at h; exact absurd h (by simp [bind, Except.bind])
    | ok y =>
      rw [hx] at h
      cases hxs : xs.mapM f with
      | error e =>
        rw [hxs] at h
        exact absurd h (by simp [bind, Except.bind])
      | ok ys =>
        rw [hxs] at h
        simp only [bind, Except.bind, pure, Except.pure] at h
        cases h
        obtain ⟨hlen, hmem⟩ := ih ys hxs
        refine ⟨by simp [hlen], ?_⟩
        intro z hz
        rcases List.mem_cons.mp hz with hz | hz
        · exact ⟨x, List.mem_cons_self .., hz ▸ hx⟩
        · obtain ⟨w, hw, hfw⟩ := hmem z hz
          exact ⟨w, List.mem_cons_of_mem _ hw, hfw⟩

/-- Every success of parseOneRanking carries a clamped score, validated
categories and the item it was given. -/
theorem parseOneRanking_props (byIdx : List (Json × List (String × Json)))
    (i : Nat) (item : CollectedItem) (r : RankedItem)
    (h : parseOneRanking byIdx i item = .ok r) :
    1 ≤ r.signal_score ∧ r.signal_score ≤ 10 ∧
      r.impact ∈ IMPACT_DIMENSIONS ∧ r.maturity ∈ MATURITY_LEVELS ∧
      r.item = item := by
  unfold parseOneRanking at h
  cases hint : pyInt (jsonGetD ((dictFind byIdx (.num i)).getD [])
      "signal_score" (.num 5)) with
  | error e =>
    simp only [hint, bind, Except.bind] at h
    exact Except.noConfusion h
  | ok raw =>
    simp only [hint, bind, Except.bind, pure, Except.pure,
      Except.ok.injEq] at h
    subst h
    refine ⟨?_, ?_, ?_, ?_, rfl⟩
    · show (1 : Int) ≤ max 1 (min 10 raw); omega
    · show max 1 (min 10 raw) ≤ (10 : Int); omega
    · show (match jsonGetD ((dictFind byIdx (.num i)).getD [])
          "impact" (.str "ecosystem") with
        | .str s => if s ∈ IMPACT_DIMENSIONS then s else "ecosystem"
        | _ => "ecosystem") ∈ IMPACT_DIMENSIONS
      split
      · split
        · assumption
        · simp [IMPACT_DIMENSIONS]
      · simp [IMPACT_DIMENSIONS]
    · show (match jsonGetD ((dictFind byIdx (.num i)).getD [])
          "maturity" (.str "growing") with
        | .str s => if s ∈ MATURITY_LEVELS then s else "growing"
        | _ => "growing") ∈ MATURITY_LEVELS
      split
      · split
        · assumption
        · simp [MATURITY_LEVELS]
      · simp [MATURITY_LEVELS]

/-- Every success of parseRankingsRun yields exactly one RankedItem per
input item, each with clamped score and validated categories. -/
theorem parseRankingsRun_ok (items : List CollectedItem) (jd : Json)
    (l : List RankedItem) (h : parseRankingsRun items jd = .ok l) :
    l.length = items.length ∧
      ∀ r ∈ l, 1 ≤ r.signal_score ∧ r.signal_score ≤ 10 ∧
        r.impact ∈ IMPACT_DIMENSIONS ∧ r.maturity ∈ MATURITY_LEVELS := by
  unfold parseRankingsRun at h
  cases hit : pyIterate (unwrapRankings jd) with
  | error e =>
    simp only [hit, bind, Except.bind] at h
    exact Except.noConfusion h
  | ok rs =>
    simp only [hit, bind, Except.bind] at h
    cases hbi : buildRankingsByIndex rs with
    | error e =>
      simp only [hbi, bind, Except.bind] at h
      exact Except.noConfusion h
    | ok byIdx =>
      simp only [hbi, bind, Except.bind] at h
      obtain ⟨hlen, hmem⟩ := except_mapM_ok _ _ _ h
      refine ⟨by simpa using hlen, ?_⟩
      intro r hr
      obtain ⟨⟨i, x⟩, _, hx⟩ := hmem r hr
      obtain ⟨h1, h2, h3, h4, _⟩ := parseOneRanking_props _ _ _ _ hx
      exact ⟨h1, h2, h3, h4⟩

/-- A sample item used as a concrete input by several witnesses. -/
def itemA : CollectedItem :=
  { id := "a1", source_type := .blogs, source_url := "https://x/1"
    title := "TitleA", content := "Body. More." }

/-! ## C1 — compute_novelty -/

/-- C1 counterexample: with a lone neighbour distance of 0 (an identical
historical item), compute_novelty returns 0, whereas the claim's formula
"novelty = 1 − similarity with similarity = min_distance / 2.0 clamped to
[0,1]" yields 1 − min(0/2, 1) = 1.  In the code, similarity is 1 minus the
normalized distance, so novelty equals the clamped normalized distance. -/
theorem compute_novelty_claim_counterexample :
    compute_novelty (.returned (some ⟨[[0]]⟩)) = 0 ∧
    (1 : Rat) - min ((0 : Rat) / 2) 1 = 1 := by
  constructor
  · show (1 : Rat) - (1 - min ((0 : Rat) / 2) 1) = 0
    norm_num
  · norm_num

/-- C1 (amended): compute_novelty returns exactly 1.0 when the
historical-items search yields no neighbour distances, returns exactly 0.5
when the store lookup raises any error, and otherwise — with min_distance
the smallest returned distance — returns novelty = 1 − similarity where
similarity is ONE MINUS min_distance normalized by the assumed maximum
distance 2.0 and clamped to [0,1]; equivalently, novelty is the clamped
normalized distance min(min_distance / 2, 1). -/
theorem compute_novelty_spec :
    compute_novelty .raised = 1 / 2 ∧
    compute_novelty (.returned none) = 1 ∧
    compute_novelty (.returned (some ⟨[]⟩)) = 1 ∧
    (∀ rest, compute_novelty (.returned (some ⟨[] :: rest⟩)) = 1) ∧
    (∀ d0 ds rest,
      compute_novelty (.returned (some ⟨(d0 :: ds) :: rest⟩)) =
        1 - (1 - min ((ds.foldl min d0) / 2) 1)) ∧
    (∀ d0 ds rest,
      compute_novelty (.returned (some ⟨(d0 :: ds) :: rest⟩)) =
        min ((ds.foldl min d0) / 2) 1) := by
  refine ⟨rfl, rfl, rfl, fun rest => rfl, fun d0 ds rest => rfl,
    fun d0 ds rest => ?_⟩
  show (1 : Rat) - (1 - min ((ds.foldl min d0) / 2) 1) = _
  ring

/-! ## C2 — the model client's retry policy -/

/-- C2 counterexample: a backend APIError whose message carries neither a
rate-limit nor an overload signature IS retried (the code raises the same
retryable ClaudeAPIError class for every APIError): with the backend failing
once with "internal server error" and succeeding on the second attempt, the
client returns that success after 2 calls, instead of raising a
non-retryable API error immediately as the claim states. -/
theorem execute_nonretryable_claim_counterexample :
    executeRun 120
      (fun n => if n = 0 then .apiFailure "internal server error"
                else .success "ok")
      = (.ok "ok", 2) := by
  rfl

/-- Calls made by the retry loop are bounded by the remaining fuel. -/
theorem executeFrom_calls_le (t : Nat) (b : Nat → BackendOutcome) :
    ∀ (fuel a : Nat), (executeFrom t b a fuel).2 ≤ a + fuel + 1 := by
  intro fuel
  induction fuel with
  | zero =>
    intro a
    simp [executeFrom]
  | succ n ih =>
    intro a
    show (match executeOnce t (b a) with
      | .ok c => ((.ok c : Except ClientError String), a + 1)
      | .error e =>
        if e.isApi then executeFrom t b (a + 1) n
        else ((.error e : Except ClientError String), a + 1)).2 ≤ a + (n + 1) + 1
    cases executeOnce t (b a) with
    | ok c => simp
    | error e =>
      by_cases he : e.isApi
      · simp only [he, if_true]
        have := ih (a + 1)
        omega
      · simp only [he]
        simp

/-- Unfolding the retry loop one step. -/
theorem executeFrom_step (t : Nat) (b : Nat → BackendOutcome) (a n : Nat) :
    executeFrom t b a (n + 1) =
      match executeOnce t (b a) with
      | .ok c => (.ok c, a + 1)
      | .error e =>
        if e.isApi then executeFrom t b (a + 1) n else (.error e, a + 1) :=
  rfl

/-- The retry loop's last attempt re-raises whatever the call produced. -/
theorem executeFrom_zero (t : Nat) (b : Nat → BackendOutcome) (a : Nat) :
    executeFrom t b a 0 = (executeOnce t (b a), a + 1) :=
  rfl

/-- An APIError outcome always maps to a ClaudeAPIError. -/
theorem executeOnce_apiFailure (t : Nat) (m : String) :
    ∃ em, executeOnce t (.apiFailure m) = .error (.apiErr em) := by
  by_cases h1 : pyContains (pyLower (pyTake m 500)) "rate" = true
  · exact ⟨"Rate limited: " ++ pyTake m 500, by simp [executeOnce, h1]⟩
  · by_cases h2 : pyContains (pyLower (pyTake m 500)) "overload" = true
    · exact ⟨"Rate limited: " ++ pyTake m 500, by simp [executeOnce, h1, h2]⟩
    · exact ⟨"API error: " ++ pyTake m 500, by simp [executeOnce, h1, h2]⟩

/-- C2 (amended): the model client retries EVERY backend error response —
whether or not its message carries a rate-limit/overload signature, since
both branches raise the same retryable ClaudeAPIError class and the
signature check only selects the message prefix — making at most 3 attempts
(with waits between them) and re-raising the final failure untouched; a
timeout raises a distinct timeout error that is never retried; a success is
returned at once. -/
theorem execute_retry_spec :
    (∀ t b, (executeRun t b).2 ≤ 3) ∧
    (∀ t m, executeRun t (fun _ => .apiFailure m) =
      (executeOnce t (.apiFailure m), 3)) ∧
    (∀ t b, b 0 = .timeout →
      executeRun t b =
        (.error (.timeoutErr ("Request timed out after " ++ toString t ++ "s")),
          1)) ∧
    (∀ t b c, b 0 = .success c → executeRun t b = (.ok c, 1)) ∧
    (∀ t b m c, b 0 = .apiFailure m → b 1 = .success c →
      executeRun t b = (.ok c, 2)) := by
  refine ⟨?_, ?_, ?_, ?_, ?_⟩
  · intro t b
    have := executeFrom_calls_le t b 2 0
    simpa [executeRun] using this
  · intro t m
    obtain ⟨em, hm⟩ := executeOnce_apiFailure t m
    show executeFrom t (fun _ => .apiFailure m) 0 2 = _
    rw [executeFrom_step]
    simp only [hm, ClientError.isApi, if_true]
    rw [executeFrom_step]
    simp only [hm, ClientError.isApi, if_true]
    rw [executeFrom_zero, hm]
  · intro t b h
    show executeFrom t b 0 2 = _
    rw [executeFrom_step, h]
    simp [executeOnce, ClientError.isApi]
  · intro t b c h
    show executeFrom t b 0 2 = _
    rw [executeFrom_step, h]
    simp [executeOnce]
  · intro t b m c h0 h1
    obtain ⟨em, hm⟩ := executeOnce_apiFailure t m
    show executeFrom t b 0 2 = _
    rw [executeFrom_step, h0, hm]
    simp only [ClientError.isApi, if_true]
    rw [executeFrom_step, h1]
    simp [executeOnce]

/-- C2 witness: the timeout case of execute_retry_spec at a concrete
behaviour — a timeout on the first attempt raises the distinct timeout error
after exactly one backend call. -/
theorem execute_retry_spec_witness :
    executeRun 120 (fun _ => .timeout) =
      (.error (.timeoutErr ("Request timed out after " ++ toString 120 ++ "s")),
        1) :=
  execute_retry_spec.2.2.1 120 (fun _ => .timeout) rfl

/-! ## C3 — rank_batch fallback behaviour -/

/-- A model response whose single ranking entry carries a non-numeric
signal_score. -/
def badScoreJson : Json :=
  .arr [.obj [("index", .num 0), ("signal_score", .str "high")]]

/-- C3 counterexample: rank_batch CAN raise to its caller for an arbitrary
JSON value — a ranking entry whose signal_score is the string "high" makes
int() raise a ValueError, which no handler in rank_batch catches (only
ClaudeClientError is caught). -/
theorem rankBatch_claim_counterexample :
    rankBatch [itemA]
      (.responded { content := "x", json_data := some badScoreJson })
      = .error "invalid literal for int: high" := by
  rfl

/-- C3 (amended): when the client raises any client error, or the call
yields no (or falsy) JSON, rank_batch returns exactly one RankedItem per
input item without raising, each carrying the heuristic fallback — base
score 5; 6 for the github_signals and docs source kinds; else 7 for the
github_emerging source kind; else 7 when the item's metadata has a truthy
has_priority_label flag (the priority bump applies only when the source kind
is none of the three special ones) — with impact "ecosystem" and maturity
"growing"; when JSON is present and every entry is well-formed, the parse
also yields exactly one RankedItem per item; but a malformed entry (e.g. a
non-numeric signal_score) raises out of rank_batch. -/
theorem rankBatch_fallback_spec :
    (∀ items e,
      rankBatch items (.clientFailure e) = .ok (fallbackRank items)) ∧
    (∀ items resp, resp.json_data = none →
      rankBatch items (.responded resp) = .ok (fallbackRank items)) ∧
    (∀ items resp j, resp.json_data = some j → pyTruthy j = false →
      rankBatch items (.responded resp) = .ok (fallbackRank items)) ∧
    (∀ items, (fallbackRank items).length = items.length) ∧
    (∀ items r, r ∈ fallbackRank items →
      r.impact = "ecosystem" ∧ r.maturity = "growing" ∧
      r.signal_score = fallbackScore r.item) ∧
    (∀ item, (item.source_type = .github_signals ∨ item.source_type = .docs) →
      fallbackScore item = 6) ∧
    (∀ item, item.source_type = .github_emerging → fallbackScore item = 7) ∧
    (∀ item, item.source_type ≠ .github_signals → item.source_type ≠ .docs →
      item.source_type ≠ .github_emerging →
      pyTruthy (jsonGetD item.metadata "has_priority_label" .null) = true →
      fallbackScore item = 7) ∧
    (∀ item, item.source_type ≠ .github_signals → item.source_type ≠ .docs →
      item.source_type ≠ .github_emerging →
      pyTruthy (jsonGetD item.metadata "has_priority_label" .null) = false →
      fallbackScore item = 5) ∧
    (∀ items jd l, parseRankingsRun items jd = .ok l →
      l.length = items.length) := by
  refine ⟨?_, ?_, ?_, ?_, ?_, ?_, ?_, ?_, ?_, ?_⟩
  · intro items e
    cases items <;> simp [rankBatch, fallbackRank]
  · intro items resp h
    cases items <;> simp [rankBatch, fallbackRank, h]
  · intro items resp j hj ht
    cases items <;> simp [rankBatch, fallbackRank, hj, ht]
  · intro items
    simp [fallbackRank]
  · intro items r hr
    simp only [fallbackRank, List.mem_map] at hr
    obtain ⟨item, _, rfl⟩ := hr
    exact ⟨rfl, rfl, rfl⟩
  · intro item h
    rcases h with h | h <;> simp [fallbackScore, h, SourceType.value]
  · intro item h
    simp [fallbackScore, h, SourceType.value]
  · intro item h1 h2 h3 h4
    have v1 : item.source_type.value ≠ "github_signals" := by
      cases hs : item.source_type <;> simp_all [SourceType.value]
    have v2 : item.source_type.value ≠ "docs" := by
      cases hs : item.source_type <;> simp_all [SourceType.value]
    have v3 : item.source_type.value ≠ "github_emerging" := by
      cases hs : item.source_type <;> simp_all [SourceType.value]
    simp [fallbackScore, v1, v2, v3, h4]
  · intro item h1 h2 h3 h4
    have v1 : item.source_type.value ≠ "github_signals" := by
      cases hs : item.source_type <;> simp_all [SourceType.value]
    have v2 : item.source_type.value ≠ "docs" := by
      cases hs : item.source_type <;> simp_all [SourceType.value]
    have v3 : item.source_type.value ≠ "github_emerging" := by
      cases hs : item.source_type <;> simp_all [SourceType.value]
    simp [fallbackScore, v1, v2, v3, h4]
  · intro items jd l h
    exact (parseRankingsRun_ok items jd l h).1

/-- C3 witness: the client-error case of rankBatch_fallback_spec at a
concrete batch. -/
theorem rankBatch_fallback_spec_witness :
    rankBatch [itemA] (.clientFailure (.apiErr "boom")) =
      .ok (fallbackRank [itemA]) :=
  rankBatch_fallback_spec.1 [itemA] (.apiErr "boom")

/-! ## C4 — analyze_batch fallback guarantee and order preservation -/

/-- C4: analyze_batch returns exactly one (item, result) pair per input
item, in input order; when the model client always raises a client error,
every result is the non-null fallback with confidence 0.3; and even an
unexpected non-client exception lands in the fallback (the catch-all), so a
single item's failure never raises out of the batch (analyzeRun is total). -/
theorem analyzeBatch_fallback_spec :
    (∀ items f, (analyzeBatch items f).map Prod.fst = items) ∧
    (∀ items f, (analyzeBatch items f).length = items.length) ∧
    (∀ items f, (∀ n, ∃ e, f n = AnalyzeOutcome.clientFailure e) →
      ∀ p ∈ analyzeBatch items f,
        p.2 = some (fallbackAnalysis p.1) ∧
        ∃ r, p.2 = some r ∧ r.confidence = 3 / 10) ∧
    (∀ item m, analyzeRun item (.unexpectedFailure m) = fallbackAnalysis item) := by
  refine ⟨?_, ?_, ?_, ?_⟩
  · intro items f
    simp [analyzeBatch, List.map_map, Function.comp_def, List.enum_map_snd]
  · intro items f
    simp [analyzeBatch]
  · intro items f hf p hp
    simp only [analyzeBatch, List.mem_map] at hp
    obtain ⟨⟨i, item⟩, _, rfl⟩ := hp
    obtain ⟨e, he⟩ := hf i
    simp only [he]
    exact ⟨rfl, fallbackAnalysis item, rfl, rfl⟩
  · intro item m
    rfl

/-- C4 witness: the always-failing-client case of analyzeBatch_fallback_spec
at a concrete single-item batch. -/
theorem analyzeBatch_fallback_spec_witness :
    ((itemA, some (fallbackAnalysis itemA)) :
        CollectedItem × Option AnalysisResult).2 =
      some (fallbackAnalysis itemA) ∧
    ∃ r, ((itemA, some (fallbackAnalysis itemA)) :
        CollectedItem × Option AnalysisResult).2 =
      some r ∧ r.confidence = 3 / 10 :=
  analyzeBatch_fallback_spec.2.2.1 [itemA]
    (fun _ => .clientFailure (.apiErr "down"))
    (fun _ => ⟨.apiErr "down", rfl⟩)
    (itemA, some (fallbackAnalysis itemA))
    (List.mem_singleton.mpr rfl)

/-! ## C5 — JSON extraction in complete / complete_json -/

/-- C5 counterexample: the content "\x7b\x7d" parses directly as JSON (the
empty object), yet json_data is left null — the `if json_data:` truthiness
check discards a parsed-but-falsy value — and complete_json raises a parse
error on it, contradicting "if the content parses directly as JSON,
json_data is set to the parsed value". -/
theorem complete_json_claim_counterexample :
    jsonLoads (pyStrip "\x7b\x7d") = some (.obj []) ∧
    completeRun true (.ok "\x7b\x7d") =
      .ok { content := "\x7b\x7d", json_data := none } ∧
    completeJsonRun (.ok "\x7b\x7d") =
      .error (.parseErr "Expected JSON response but got: \x7b\x7d") := by
  refine ⟨rfl, rfl, rfl⟩

/-- C5 (amended): under expect_json, a successful direct or fenced-block
parse populates json_data exactly when the parsed value is truthy (a falsy
value such as an empty object/array, 0, null, false or "" is discarded and
json_data stays null); failed extraction leaves json_data null without
raising; and complete_json raises a parse error exactly when json_data
ends up null, otherwise returning the parsed value. -/
theorem complete_json_extraction_spec :
    (∀ content j, parseJsonFromContent content = some j → pyTruthy j = true →
      content ≠ "" →
      completeRun true (.ok content) =
        .ok { content := content, json_data := some j }) ∧
    (∀ content, parseJsonFromContent content = none →
      completeRun true (.ok content) =
        .ok { content := content, json_data := none }) ∧
    (∀ content j, parseJsonFromContent content = some j → pyTruthy j = false →
      completeRun true (.ok content) =
        .ok { content := content, json_data := none }) ∧
    (∀ content j, jsonLoads (pyStrip content) = some j →
      parseJsonFromContent content = some j) ∧
    (∀ content j, jsonLoads (pyStrip content) = none →
      pyContains content "```json" = true →
      jsonLoads (pyStrip (pySlice content
        ((pyFind content "```json" 0).toNat + 7)
        (pyFind content "```" ((pyFind content "```json" 0).toNat + 7))))
        = some j →
      parseJsonFromContent content = some j) ∧
    (∀ content j, completeRun true (.ok content) =
        .ok { content := content, json_data := some j } →
      completeJsonRun (.ok content) = .ok j) ∧
    (∀ content, completeRun true (.ok content) =
        .ok { content := content, json_data := none } →
      completeJsonRun (.ok content) =
        .error (.parseErr ("Expected JSON response but got: " ++
          pyTake content 200))) := by
  refine ⟨?_, ?_, ?_, ?_, ?_, ?_, ?_⟩
  · intro content j hp ht hne
    simp [completeRun, hp, ht, hne]
  · intro content hp
    by_cases hne : content = ""
    · simp [completeRun, hne]
    · simp [completeRun, hp, hne]
  · intro content j hp ht
    by_cases hne : content = ""
    · simp [completeRun, hne]
    · simp [completeRun, hp, ht, hne]
  · intro content j h
    simp [parseJsonFromContent, h]
  · intro content j h hc hf
    simp [parseJsonFromContent, h, hc, hf]
  · intro content j h
    simp [completeJsonRun, h]
  · intro content h
    simp [completeJsonRun, h]

/-- C5 witness: the fenced-code-block case at the spec's own example — the
content consisting of a json-tagged fenced block around the object with one
key "a" mapped to 1 extracts that object, and complete_json returns it. -/
theorem complete_json_extraction_spec_witness :
    completeRun true (.ok "```json\n\x7b\"a\": 1\x7d\n```") =
      .ok { content := "```json\n\x7b\"a\": 1\x7d\n```",
            json_data := some (.obj [("a", .num 1)]) } :=
  complete_json_extraction_spec.1 "```json\n\x7b\"a\": 1\x7d\n```"
    (.obj [("a", .num 1)]) rfl rfl (by decide)

/-! ## C6 — synthesize_daily degradation -/

/-- C6: synthesize_daily with a client error or no/falsy JSON returns the
daily fallback: relevance_score 5, highlights the titles of the first 3
items (fewer if fewer are given), a non-empty summary string, and a
"Review items manually" recommendation. -/
theorem synthesizeDaily_fallback_spec :
    (∀ date items e,
      synthesizeDaily date items (.clientFailure e) =
        .ok (fallbackDaily date items)) ∧
    (∀ date items resp, resp.json_data = none →
      synthesizeDaily date items (.responded resp) =
        .ok (fallbackDaily date items)) ∧
    (∀ date items resp j, resp.json_data = some j → pyTruthy j = false →
      synthesizeDaily date items (.responded resp) =
        .ok (fallbackDaily date items)) ∧
    (∀ date items, (fallbackDaily date items).relevance_score = 5) ∧
    (∀ date items, (fallbackDaily date items).highlights =
      .arr ((items.take 3).map (fun p => .str p.1.title))) ∧
    (∀ date items, ∃ s, (fallbackDaily date items).summary = .str s ∧ s ≠ "") ∧
    (∀ date items, (fallbackDaily date items).recommendations =
      .arr [.str "Review items manually"]) := by
  refine ⟨?_, ?_, ?_, fun _ _ => rfl, fun _ _ => rfl, ?_, fun _ _ => rfl⟩
  · intro date items e
    rfl
  · intro date items resp h
    simp [synthesizeDaily, h]
  · intro date items resp j hj ht
    simp [synthesizeDaily, hj, ht]
  · intro date items
    refine ⟨_, rfl, ?_⟩
    intro h
    have h2 := congrArg String.length h
    rw [String.length_append, String.length_append] at h2
    have h10 : ("Processed " : String).length = 10 := rfl
    have h0 : ("" : String).length = 0 := rfl
    omega

/-- C6 witness: the no-JSON case of synthesizeDaily_fallback_spec at a
concrete item list. -/
theorem synthesizeDaily_fallback_spec_witness :
    synthesizeDaily "2026-10-12" [(itemA, none)]
      (.responded { content := "no json here" }) =
      .ok (fallbackDaily "2026-10-12" [(itemA, none)]) :=
  synthesizeDaily_fallback_spec.2.1 "2026-10-12" [(itemA, none)]
    { content := "no json here" } rfl

/-! ## C7 — score clamping -/

/-- C7: every numeric score parsed from model JSON is range-clamped — the
ranking parser clamps signal_score to [1,10] (15 becomes 10, −3 becomes 1),
the daily/weekly/monthly synthesis parsers clamp relevance_score to [1,10],
and the analysis parser clamps confidence to [0,1]. -/
theorem score_clamping_spec :
    (∀ items jd l, parseRankingsRun items jd = .ok l →
      ∀ r ∈ l, 1 ≤ r.signal_score ∧ r.signal_score ≤ 10) ∧
    (Except.map (fun r => r.signal_score)
      (parseOneRanking [(.num 0, [("signal_score", .num 15)])] 0 itemA)
      = .ok 10) ∧
    (Except.map (fun r => r.signal_score)
      (parseOneRanking [(.num 0, [("signal_score", .num (-3))])] 0 itemA)
      = .ok 1) ∧
    (∀ date fs d, parseDailySynthesis date fs = .ok d →
      1 ≤ d.relevance_score ∧ d.relevance_score ≤ 10) ∧
    (∀ week fs w, parseWeeklySynthesis week fs = .ok w →
      1 ≤ w.relevance_score ∧ w.relevance_score ≤ 10) ∧
    (∀ month fs m, parseMonthlySynthesis month fs = .ok m →
      1 ≤ m.relevance_score ∧ m.relevance_score ≤ 10) ∧
    (∀ idv fs a, parseAnalysisResult idv fs = .ok a →
      0 ≤ a.confidence ∧ a.confidence ≤ 1) := by
  refine ⟨?_, by rfl, by rfl, ?_, ?_, ?_, ?_⟩
  · intro items jd l h r hr
    obtain ⟨h1, h2, _, _⟩ := (parseRankingsRun_ok items jd l h).2 r hr
    exact ⟨h1, h2⟩
  · intro date fs d h
    unfold parseDailySynthesis at h
    cases hint : pyInt (jsonGetD fs "relevance_score" (.num 5)) with
    | error e =>
      simp only [hint, bind, Except.bind] at h
      exact Except.noConfusion h
    | ok raw =>
      simp only [hint, bind, Except.bind, pure, Except.pure,
        Except.ok.injEq] at h
      subst h
      constructor
      · show (1 : Int) ≤ min 10 (max 1 raw); omega
      · show min 10 (max 1 raw) ≤ (10 : Int); omega
  · intro week fs w h
    unfold parseWeeklySynthesis at h
    cases hint : pyInt (jsonGetD fs "relevance_score" (.num 5)) with
    | error e =>
      simp only [hint, bind, Except.bind] at h
      exact Except.noConfusion h
    | ok raw =>
      simp only [hint, bind, Except.bind, pure, Except.pure,
        Except.ok.injEq] at h
      subst h
      constructor
      · show (1 : Int) ≤ min 10 (max 1 raw); omega
      · show min 10 (max 1 raw) ≤ (10 : Int); omega
  · intro month fs m h
    unfold parseMonthlySynthesis at h
    cases hint : pyInt (jsonGetD fs "relevance_score" (.num 5)) with
    | error e =>
      simp only [hint, bind, Except.bind] at h
      exact Except.noConfusion h
    | ok raw =>
      simp only [hint, bind, Except.bind, pure, Except.pure,
        Except.ok.injEq] at h
      subst h
      constructor
      · show (1 : Int) ≤ min 10 (max 1 raw); omega
      · show min 10 (max 1 raw) ≤ (10 : Int); omega
  · intro idv fs a h
    unfold parseAnalysisResult at h
    cases hc : pyFloat (jsonGetD fs "confidence" (.num (mkRat 7 10))) with
    | error e =>
      simp only [hc, bind, Except.bind] at h
      exact Except.noConfusion h
    | ok conf =>
      simp only [hc, bind, Except.bind, pure, Except.pure,
        Except.ok.injEq] at h
      subst h
      exact ⟨le_min zero_le_one (le_max_left 0 conf), min_le_left 1 _⟩

/-- C7 witness: the daily synthesis conjunct at a model response whose
relevance_score is the out-of-range 15, clamped into [1,10]. -/
theorem score_clamping_spec_witness :
    1 ≤ ({ date := "2026-01-01", relevance_score := 10, highlights := .arr [],
           patterns := .arr [], recommendations := .arr [],
           key_changes := .arr [],
           summary := Json.str "Synthesis unavailable." } :
        DailySynthesis).relevance_score ∧
    ({ date := "2026-01-01", relevance_score := 10, highlights := .arr [],
       patterns := .arr [], recommendations := .arr [],
       key_changes := .arr [],
       summary := Json.str "Synthesis unavailable." } :
        DailySynthesis).relevance_score ≤ 10 :=
  score_clamping_spec.2.2.2.1 "2026-01-01" [("relevance_score", .num 15)]
    _ (by rfl)

/-! ## C8 — category validation -/

/-- C8: for every parsed ranking entry, an impact value outside
IMPACT_DIMENSIONS is replaced with "ecosystem" and a maturity value outside
MATURITY_LEVELS is replaced with "growing"; the item is never rejected for
an invalid category (the parse can only fail on the signal_score coercion). -/
theorem category_validation_spec :
    (∀ items jd l, parseRankingsRun items jd = .ok l →
      l.length = items.length ∧
      ∀ r ∈ l, r.impact ∈ IMPACT_DIMENSIONS ∧ r.maturity ∈ MATURITY_LEVELS) ∧
    (∀ byIdx (i : Nat) item r s, parseOneRanking byIdx i item = .ok r →
      jsonGetD ((dictFind byIdx (.num i)).getD []) "impact" (.str "ecosystem")
        = .str s →
      s ∉ IMPACT_DIMENSIONS → r.impact = "ecosystem") ∧
    (∀ byIdx (i : Nat) item r s, parseOneRanking byIdx i item = .ok r →
      jsonGetD ((dictFind byIdx (.num i)).getD []) "maturity" (.str "growing")
        = .str s →
      s ∉ MATURITY_LEVELS → r.maturity = "growing") ∧
    (∀ byIdx (i : Nat) item raw,
      pyInt (jsonGetD ((dictFind byIdx (.num i)).getD []) "signal_score"
        (.num 5)) = .ok raw →
      ∃ r, parseOneRanking byIdx i item = .ok r) := by
  refine ⟨?_, ?_, ?_, ?_⟩
  · intro items jd l h
    obtain ⟨hlen, hmem⟩ := parseRankingsRun_ok items jd l h
    exact ⟨hlen, fun r hr => ⟨(hmem r hr).2.2.1, (hmem r hr).2.2.2⟩⟩
  · intro byIdx i item r s h hs hns
    unfold parseOneRanking at h
    cases hint : pyInt (jsonGetD ((dictFind byIdx (.num i)).getD [])
        "signal_score" (.num 5)) with
    | error e =>
      simp only [hint, bind, Except.bind] at h
      exact Except.noConfusion h
    | ok raw =>
      simp only [hint, bind, Except.bind, pure, Except.pure,
        Except.ok.injEq] at h
      subst h
      show (match jsonGetD ((dictFind byIdx (.num i)).getD [])
          "impact" (.str "ecosystem") with
        | .str s => if s ∈ IMPACT_DIMENSIONS then s else "ecosystem"
        | _ => "ecosystem") = "ecosystem"
      rw [hs]
      simp [hns]
  · intro byIdx i item r s h hs hns
    unfold parseOneRanking at h
    cases hint : pyInt (jsonGetD ((dictFind byIdx (.num i)).getD [])
        "signal_score" (.num 5)) with
    | error e =>
      simp only [hint, bind, Except.bind] at h
      exact Except.noConfusion h
    | ok raw =>
      simp only [hint, bind, Except.bind, pure, Except.pure,
        Except.ok.injEq] at h
      subst h
      show (match jsonGetD ((dictFind byIdx (.num i)).getD [])
          "maturity" (.str "growing") with
        | .str s => if s ∈ MATURITY_LEVELS then s else "growing"
        | _ => "growing") = "growing"
      rw [hs]
      simp [hns]
  · intro byIdx i item raw hint
    unfold parseOneRanking
    simp only [hint, bind, Except.bind]
    exact ⟨_, rfl⟩

/-- C8 witness: an entry carrying the invalid impact "bogus" parses with
impact replaced by "ecosystem" instead of being rejected. -/
theorem category_validation_spec_witness :
    ({ item := itemA, signal_score := 5, impact := "ecosystem",
       maturity := "growing", reasoning := none } : RankedItem).impact
      = "ecosystem" :=
  category_validation_spec.2.1 [(.num 0, [("impact", .str "bogus")])] 0 itemA
    _ "bogus" (by rfl) (by rfl) (by decide)

/-! ## C9 — threshold filter and its idempotence -/

/-- C9: rank_all followed by apply_scores yields exactly the ranked items
whose assigned signal_score is ≥ the threshold, with the score triple
written onto each surviving CollectedItem; re-running the threshold filter
on that output with the same threshold keeps every item. -/
theorem threshold_filter_spec :
    ∀ bs t items resp all, rankAllRaw bs items resp = .ok all →
      rankAllRun bs t items resp =
        .ok (all.filter (fun r => t ≤ r.signal_score)) ∧
      (∀ it ∈ applyScores (all.filter (fun r => t ≤ r.signal_score)),
        ∃ s, it.signal_score = some s ∧ t ≤ s) ∧
      thresholdFilter t
          (applyScores (all.filter (fun r => t ≤ r.signal_score))) =
        applyScores (all.filter (fun r => t ≤ r.signal_score)) := by
  intro bs t items resp all h
  refine ⟨by simp [rankAllRun, h, Except.map], ?_, ?_⟩
  · intro it hit
    simp only [applyScores, List.mem_map] at hit
    obtain ⟨r, hrmem, rfl⟩ := hit
    have := (List.mem_filter.mp hrmem).2
    exact ⟨r.signal_score, rfl, by simpa using this⟩
  · apply List.filter_eq_self.mpr
    intro x hx
    simp only [applyScores, List.mem_map] at hx
    obtain ⟨r, hrmem, rfl⟩ := hx
    have := (List.mem_filter.mp hrmem).2
    simpa using this

/-- C9 witness: a concrete run — one batch whose client call fails, so the
fallback-ranked item (score 5) passes threshold 4, survives the filter with
its triple applied, and re-filtering keeps it. -/
theorem threshold_filter_spec_witness :
    rankAllRun 10 4 [itemA] (fun _ => .clientFailure (.apiErr "x")) =
      .ok ((fallbackRank [itemA]).filter (fun r => 4 ≤ r.signal_score)) ∧
    (∀ it ∈ applyScores ((fallbackRank [itemA]).filter
        (fun r => 4 ≤ r.signal_score)),
      ∃ s, it.signal_score = some s ∧ 4 ≤ s) ∧
    thresholdFilter 4 (applyScores ((fallbackRank [itemA]).filter
        (fun r => 4 ≤ r.signal_score))) =
      applyScores ((fallbackRank [itemA]).filter
        (fun r => 4 ≤ r.signal_score)) :=
  threshold_filter_spec 10 4 [itemA] (fun _ => .clientFailure (.apiErr "x"))
    (fallbackRank [itemA]) (by rfl)

/-! ## C10 — zero thresholds silently replaced by configured defaults -/

/-- C10: passing a zero at the public interface does not disable filtering —
SignalRanker with batch_size=0 or signal_threshold=0 and NoveltyDetector
with novelty_threshold=0.0 substitute the configured default via the
truthiness `or` fallback, and filter_novel with min_novelty=0.0 behaves
exactly like the default call (its local threshold falls back the same way,
and the per-item check always uses the detector's own threshold). -/
theorem zero_threshold_defaulting_spec :
    (∀ cfg t d, (mkSignalRanker cfg 0 t d).batch_size = cfg.batch_size) ∧
    (∀ cfg b d,
      (mkSignalRanker cfg b 0 d).signal_threshold = cfg.signal_score_min) ∧
    (∀ cfg s, (mkNoveltyDetector cfg 0 s).novelty_threshold =
      cfg.novelty_score_min) ∧
    (∀ d, pyOrOptRat (some 0) d = d) ∧
    (∀ t lookup items,
      filterNovel t (some 0) lookup items = filterNovel t none lookup items) ∧
    (mkSignalRanker {} 0 0 none).batch_size = 10 ∧
    (mkSignalRanker {} 0 0 none).signal_threshold = 4 ∧
    (mkNoveltyDetector {} 0 (mkRat 8 10)).novelty_threshold = 3 / 10 := by
  refine ⟨?_, ?_, ?_, ?_, ?_, ?_, ?_, ?_⟩
  · intro cfg t d
    simp [mkSignalRanker, pyOrNat]
  · intro cfg b d
    simp [mkSignalRanker, pyOrInt]
  · intro cfg s
    simp [mkNoveltyDetector, pyOrRat]
  · intro d
    simp [pyOrOptRat, pyOrRat]
  · intro t lookup items
    rfl
  · rfl
  · rfl
  · rfl

end AIArch

